import Mathlib

/-!
Verification development for the healthcare-ai-assistant chat frontend.

The repository is a React chat client: `src/services/api.js` (REST client
with base-URL normalization and three-tier HTTP error construction) and
`App.js` (view-state controller: patient list, active patient, message
list, input text, loading/error flags, and the send/history/initial-load
flows).  This file shallowly embeds those functions and proves the spec's
claims about them.

Strings are modelled with Lean `String` (a list of characters in this
toolchain), JavaScript string operations (`trim`, `replace`, `slice`,
`toLowerCase`, `endsWith`) as functions on `List Char`.  Asynchronous
effects are modelled by splitting each handler at its `await` points:
a `...Pre` function gives the state visible while the request is in
flight, and a `...Post` function consumes the request's result, an
`Except Unit _` whose `error` case is a rejected promise.  JavaScript
`undefined`/`null` field accesses are modelled with `Option`.
-/

/-- Character class of the JavaScript regex `\s` (whitespace), as used by
`String.prototype.trim` and the snippet-collapsing regex in `api.js`. -/
def jsIsWs (c : Char) : Bool :=
  c = '\t' || c = '\n' || c = '\x0b' || c = '\x0c' || c = '\r' || c = ' ' ||
  c = '\u00A0' || c = '\u1680' || (0x2000 ≤ c.toNat && c.toNat ≤ 0x200A) ||
  c = '\u2028' || c = '\u2029' || c = '\u202F' || c = '\u205F' ||
  c = '\u3000' || c = '\uFEFF'

/-- Drop leading JS whitespace (left half of `String.prototype.trim`). -/
def trimLeftL (l : List Char) : List Char :=
  l.dropWhile jsIsWs

/-- Drop trailing JS whitespace (right half of `String.prototype.trim`). -/
def trimRightL (l : List Char) : List Char :=
  (l.reverse.dropWhile jsIsWs).reverse

/-- JavaScript `String.prototype.trim` on the character list. -/
def trimL (l : List Char) : List Char :=
  trimRightL (trimLeftL l)

/-- JavaScript `str.trim()` on `String`. -/
def jsTrim (s : String) : String :=
  ⟨trimL s.data⟩

/-- The `replace(/\/+$/, "")` step of `normalizeBaseUrl`: remove all
trailing `/` characters. -/
def stripTrailingSlashesL (l : List Char) : List Char :=
  (l.reverse.dropWhile (fun c => c = '/')).reverse

/-- JavaScript `toLowerCase`, characterwise. -/
def toLowerL (l : List Char) : List Char :=
  l.map Char.toLower

/-- JavaScript `str.endsWith(suf)`. -/
def endsWithL (suf l : List Char) : Bool :=
  List.isPrefixOf suf.reverse l.reverse

/-- JavaScript `str.slice(0, -n)`: drop the last `n` characters. -/
def dropRightL (n : Nat) (l : List Char) : List Char :=
  l.take (l.length - n)

/-- Embedding of `normalizeBaseUrl(url)` from `src/services/api.js`:

- `if (!url) return "/api";` — the argument absent (`none`) or the empty
  string is falsy;
- `let u = String(url).trim().replace(/\/+$/, "");`
- `if (u.toLowerCase().endsWith("/api")) u = u.slice(0, -4);`
- `return u || "/api";` -/
def normalizeBaseUrl : Option String → String
  | none => "/api"
  | some url =>
    if url = "" then "/api"
    else
      let u := stripTrailingSlashesL (trimL url.data)
      let u := if endsWithL "/api".data (toLowerL u) then dropRightL 4 u else u
      if u = [] then "/api" else ⟨u⟩

/-- One step of `text.replace(/\s+/g, " ")`: the boolean records whether the
previous character belonged to a whitespace run already replaced by a
single space. -/
def collapseWsGo : Bool → List Char → List Char
  | _, [] => []
  | inRun, c :: rest =>
    if jsIsWs c then
      if inRun then collapseWsGo true rest
      else ' ' :: collapseWsGo true rest
    else c :: collapseWsGo false rest

/-- JavaScript `text.replace(/\s+/g, " ")`: every maximal whitespace run
becomes a single space. -/
def collapseWs (s : String) : String :=
  ⟨collapseWsGo false s.data⟩

/-- The snippet built by `buildHttpError`'s text tier:
`(text || "").replace(/\s+/g, " ").slice(0, 160)`. -/
def snippetOf (t : String) : String :=
  ⟨(collapseWs t).data.take 160⟩

/-- The JSON body as far as `buildHttpError` inspects it: the `detail`,
`message` and `error` string fields, the empty string standing for an
absent or falsy field (only truthiness is consulted, via `||`). -/
structure JsonErrBody where
  detail : String := ""
  message : String := ""
  error : String := ""
deriving Repr, DecidableEq

/-- The chain `data?.detail || data?.message || data?.error`: the first
truthy field, if any. -/
def firstTruthyField (b : JsonErrBody) : Option String :=
  if b.detail ≠ "" then some b.detail
  else if b.message ≠ "" then some b.message
  else if b.error ≠ "" then some b.error
  else none

/-- A non-2xx `Response` as consumed by `buildHttpError`:
`jsonBody = none` when `tryParseJson` yields `null` (parse failure or a
falsy parse result, both skip the detail tier), `textBody = none` when
`res.text()` throws. -/
structure RespModel where
  status : Nat
  statusText : String
  jsonBody : Option JsonErrBody
  textBody : Option String
deriving Repr, DecidableEq

/-- The `HTTP <status> <statusText>` fragment of the fallback messages. -/
def httpStatusLine (res : RespModel) : String :=
  "HTTP " ++ toString res.status ++ " " ++ res.statusText

/-- Tiers 2 and 3 of `buildHttpError`: try `res.text()` and include a
collapsed, truncated snippet; if even that throws, status line only. -/
def buildHttpErrorTextTier (res : RespModel) (defaultMsg : String) : String :=
  match res.textBody with
  | some t => defaultMsg ++ ": " ++ httpStatusLine res ++ " — " ++ snippetOf t
  | none => defaultMsg ++ ": " ++ httpStatusLine res

/-- Embedding of `buildHttpError(res, defaultMsg)` from
`src/services/api.js`: parse the body as JSON and use the first truthy of
`detail`/`message`/`error`; otherwise fall back to the text tier.  The
function is total, so no branch of the construction can itself throw. -/
def buildHttpError (res : RespModel) (defaultMsg : String) : String :=
  match res.jsonBody with
  | some dat =>
    match firstTruthyField dat with
    | some d => defaultMsg ++ ": " ++ d
    | none => buildHttpErrorTextTier res defaultMsg
  | none => buildHttpErrorTextTier res defaultMsg

/-- A string whose first character is not JS whitespace (vacuously true for
the empty string); the shape of input for which `trim` has no work to do at
the front. -/
def noLeadingWs (s : String) : Bool :=
  match s.data with
  | [] => true
  | c :: _ => !jsIsWs c

/-- The condition under which `buildHttpError` cannot use its first tier:
the JSON parse produced nothing usable — either `tryParseJson` yielded a
falsy value, or the parsed object has no truthy `detail`, `message` or
`error` field. -/
def jsonTierUnavailable (r : RespModel) : Prop :=
  r.jsonBody = none ∨ ∃ dat, r.jsonBody = some dat ∧ firstTruthyField dat = none

/-- A patient as the controller uses it (`p.id`, `p.name`); the optional
`age`/`notes` fields never reach any modelled flow. -/
structure Patient where
  id : String
  name : String
deriving Repr, DecidableEq

/-- A chat message, `{ id, role, agent, content, ts }`. -/
structure Message where
  id : String
  role : String
  agent : String
  content : String
  ts : String
deriving Repr, DecidableEq

/-- The view state held by `App` via `useState`. -/
structure AppState where
  patients : List Patient
  activePatient : Option Patient
  messages : List Message
  userInput : String
  loading : Bool
  savingPatient : Bool
  error : String
deriving Repr, DecidableEq

/-- The `useState` initial values of `App`. -/
def initialState : AppState :=
  { patients := [], activePatient := none, messages := [], userInput := "",
    loading := false, savingPatient := false, error := "" }

/-- Embedding of the initial-load effect of `App` (runs once at startup).
The fetch result is `Except.error` for a rejected `fetchPatients` promise,
otherwise `some` list or `none` for a falsy JSON body (`data || []`):

- `setPatients(data || []); if ((data || []).length > 0) setActivePatient(data[0]);`
- on rejection: `setError("Unable to load patients.")`. -/
def initialLoadEffect (s : AppState) (result : Except Unit (Option (List Patient))) :
    AppState :=
  match result with
  | Except.ok dataOpt =>
    let d := dataOpt.getD []
    let s1 := { s with patients := d }
    match d with
    | [] => s1
    | p :: _ => { s1 with activePatient := some p }
  | Except.error _ => { s with error := "Unable to load patients." }

/-- The history-loading effect of `App` before its `await`: with a falsy
active patient (or falsy `id`), clear `messages` and stop; otherwise the
state is untouched while `fetchPatientHistory` is in flight. -/
def historyEffectPre (s : AppState) : AppState :=
  match s.activePatient with
  | none => { s with messages := [] }
  | some p => if p.id = "" then { s with messages := [] } else s

/-- The history-loading effect of `App` after its `await` resolves (only
reached with a truthy active patient): on success
`setMessages(history?.messages || [])`; on rejection
`setError("Unable to load chat history.")` — `messages` is not written. -/
def historyEffectPost (s : AppState) (result : Except Unit (Option (List Message))) :
    AppState :=
  match result with
  | Except.ok hist => { s with messages := hist.getD [] }
  | Except.error _ => { s with error := "Unable to load chat history." }

/-- The whole history-loading effect for a given fetch outcome. -/
def historyEffect (s : AppState) (result : Except Unit (Option (List Message))) :
    AppState :=
  match s.activePatient with
  | none => { s with messages := [] }
  | some p =>
    if p.id = "" then { s with messages := [] }
    else historyEffectPost (historyEffectPre s) result

/-- Embedding of the `canSend` memo:
`userInput.trim().length > 0 && !!activePatient && !loading`. -/
def canSend (s : AppState) : Bool :=
  decide ((jsTrim s.userInput).length > 0) && s.activePatient.isSome && !s.loading

/-- The optimistic user message built by `handleSend`; `now` stands for
the `Date.now()` id suffix and `ts` for `new Date().toISOString()`. -/
def userMessage (s : AppState) (now ts : String) : Message :=
  { id := "user-" ++ now, role := "user", agent := "user",
    content := jsTrim s.userInput, ts := ts }

/-- `handleSend` before its `await`: guard on `canSend`, then
`setLoading(true); setError(""); setMessages(prev => [...prev, userMsg]);
setUserInput("")`. -/
def handleSendPre (s : AppState) (now ts : String) : AppState :=
  if canSend s then
    { s with loading := true, error := "",
             messages := s.messages ++ [userMessage s now ts],
             userInput := "" }
  else s

/-- The client-side fallback for a missing `agent1` response field. -/
def agent1Fallback (now ts : String) : Message :=
  { id := "agent1-" ++ now, role := "assistant", agent := "agent1",
    content := "I\x27m Agent 1. I will ask you health-related questions to record symptoms.",
    ts := ts }

/-- The client-side fallback for a missing `agent2` response field. -/
def agent2Fallback (now ts : String) : Message :=
  { id := "agent2-" ++ now, role := "assistant", agent := "agent2",
    content := "I\x27m Agent 2. Based on symptoms, I will recommend appropriate medicine.",
    ts := ts }

/-- The `sendChatMessage` response as `handleSend` reads it: only the
`agent1`/`agent2` fields are consulted (`resp?.agent1`, `resp?.agent2`);
`none` stands for an absent or falsy field (a null response yields two
`none`s). -/
structure ChatResponse where
  agent1 : Option Message
  agent2 : Option Message
deriving Repr, DecidableEq

/-- `handleSend` after its `await`: on success append
`resp?.agent1 || fallback1` then `resp?.agent2 || fallback2`; on rejection
`setError("Unable to send message. Please try again.")`; in both cases the
`finally` block runs `setLoading(false)`. -/
def handleSendPost (s : AppState) (result : Except Unit ChatResponse)
    (now ts : String) : AppState :=
  match result with
  | Except.ok resp =>
    { s with
      messages := s.messages ++
        [resp.agent1.getD (agent1Fallback now ts),
         resp.agent2.getD (agent2Fallback now ts)],
      loading := false }
  | Except.error _ =>
    { s with error := "Unable to send message. Please try again.",
             loading := false }

/-- The whole `handleSend` intent for a given request outcome.  The
boolean of the pair records whether an HTTP request was issued: the
`if (!canSend) return;` guard stops the handler before any request. -/
def handleSend (s : AppState) (now ts : String)
    (result : Except Unit ChatResponse) : AppState × Bool :=
  if canSend s then (handleSendPost (handleSendPre s now ts) result now ts, true)
  else (s, false)

/-- A response whose body is JSON with a truthy detail field. -/
def respDetail : RespModel :=
  { status := 500, statusText := "Internal Server Error",
    jsonBody := some { detail := "boom", message := "", error := "" },
    textBody := some "ignored" }

/-- A response whose body is not JSON (an HTML page, say). -/
def respHtml : RespModel :=
  { status := 404, statusText := "Not Found",
    jsonBody := none, textBody := some "a\n\n  b" }

/-- A response whose body can be neither parsed nor read. -/
def respUnreadable : RespModel :=
  { status := 502, statusText := "Bad Gateway",
    jsonBody := some { detail := "", message := "", error := "" }, textBody := none }

/-- The state reached after the user has switched the active patient from
a first patient (whose history is on screen) to a second one: the effect
re-runs with the stale message still in `messages`. -/
def patientA : Patient := { id := "pA", name := "Alice" }

/-- The newly selected patient. -/
def patientB : Patient := { id := "pB", name := "Bob" }

/-- A message belonging to the previously active patient's history. -/
def staleMessage : Message :=
  { id := "m1", role := "assistant", agent := "agent1",
    content := "old note for Alice", ts := "t0" }

/-- View state at the moment the history effect re-runs for `patientB`. -/
def switchedState : AppState :=
  { initialState with
    patients := [patientA, patientB],
    activePatient := some patientB,
    messages := [staleMessage] }

/-- A patient whose `id` is falsy (the empty string); `handleSelectPatient`
accepts such objects, and the history effect's `!activePatient.id` guard
fires for them. -/
def blankIdPatient : Patient := { id := "", name := "Draft" }

/-- View state in which the active patient exists but has a falsy id,
with a leftover message on screen. -/
def blankIdState : AppState :=
  { initialState with
    activePatient := some blankIdPatient,
    messages := [staleMessage] }

/-- The spec scenario's active patient. -/
def janePatient : Patient := { id := "p1", name := "Jane" }

/-- A state in which `canSend` holds: input typed, a patient active,
nothing in flight. -/
def sendState : AppState :=
  { initialState with
    patients := [janePatient],
    activePatient := some janePatient,
    userInput := "Hello" }

/-- A state with a send in flight: `loading` is true, so `canSend` is
false even though input and active patient are present. -/
def inFlightState : AppState :=
  { initialState with
    patients := [janePatient],
    activePatient := some janePatient,
    userInput := "Hello again",
    loading := true }

theorem dropWhile_eq_self_of_head {p : Char → Bool} {l : List Char}
    (h : ∀ c, l.head? = some c → p c = false) : l.dropWhile p = l := by
  cases l with
  | nil => rfl
  | cons c t =>
    have hc : p c = false := h c rfl
    simp [List.dropWhile_cons, hc]

theorem head_false_of_dropWhile_fix {p : Char → Bool} {l : List Char}
    (h : l.dropWhile p = l) : ∀ c, l.head? = some c → p c = false := by
  intro c hc
  have hd := List.head?_dropWhile_not p l
  rw [h, hc] at hd
  exact hd

theorem dropWhile_append_self {p : Char → Bool} {l r : List Char}
    (hl : ∀ c, l.head? = some c → p c = false)
    (hr : ∀ c, r.head? = some c → p c = false) :
    (l ++ r).dropWhile p = l ++ r := by
  cases l with
  | nil => simpa using dropWhile_eq_self_of_head hr
  | cons c t =>
    have hc : p c = false := hl c rfl
    simp [List.dropWhile_cons, hc]

theorem trimL_append_api (l : List Char) (h : l.dropWhile jsIsWs = l) :
    trimL (l ++ ['/', 'a', 'p', 'i']) = l ++ ['/', 'a', 'p', 'i'] := by
  have hfront : trimLeftL (l ++ ['/', 'a', 'p', 'i']) = l ++ ['/', 'a', 'p', 'i'] :=
    dropWhile_append_self (head_false_of_dropWhile_fix h)
      (by intro c hc; cases hc; decide)
  unfold trimL
  rw [hfront]
  unfold trimRightL
  rw [List.reverse_append]
  have hrev : (['/', 'a', 'p', 'i'] : List Char).reverse = ['i', 'p', 'a', '/'] := by decide
  rw [hrev]
  have hstop : (['i', 'p', 'a', '/'] ++ l.reverse).dropWhile jsIsWs
      = ['i', 'p', 'a', '/'] ++ l.reverse := by
    refine dropWhile_eq_self_of_head ?_
    intro c hc
    simp at hc
    rw [← hc]
    decide
  rw [hstop, List.reverse_append, List.reverse_reverse]
  have hrev2 : (['i', 'p', 'a', '/'] : List Char).reverse = ['/', 'a', 'p', 'i'] := by decide
  rw [hrev2]

theorem strip_slashes_append_api (l : List Char) :
    stripTrailingSlashesL (l ++ ['/', 'a', 'p', 'i']) = l ++ ['/', 'a', 'p', 'i'] := by
  unfold stripTrailingSlashesL
  rw [List.reverse_append]
  have hrev : (['/', 'a', 'p', 'i'] : List Char).reverse = ['i', 'p', 'a', '/'] := by decide
  rw [hrev]
  have hstop : (['i', 'p', 'a', '/'] ++ l.reverse).dropWhile (fun c => c = '/')
      = ['i', 'p', 'a', '/'] ++ l.reverse := by
    refine dropWhile_eq_self_of_head ?_
    intro c hc
    simp at hc
    rw [← hc]
    decide
  rw [hstop, List.reverse_append, List.reverse_reverse]
  have hrev2 : (['i', 'p', 'a', '/'] : List Char).reverse = ['/', 'a', 'p', 'i'] := by decide
  rw [hrev2]

theorem trimL_append_api_slash (l : List Char) (h : l.dropWhile jsIsWs = l) :
    trimL (l ++ ['/', 'a', 'p', 'i', '/']) = l ++ ['/', 'a', 'p', 'i', '/'] := by
  have hfront : trimLeftL (l ++ ['/', 'a', 'p', 'i', '/']) = l ++ ['/', 'a', 'p', 'i', '/'] :=
    dropWhile_append_self (head_false_of_dropWhile_fix h)
      (by intro c hc; cases hc; decide)
  unfold trimL
  rw [hfront]
  unfold trimRightL
  rw [List.reverse_append]
  have hrev : (['/', 'a', 'p', 'i', '/'] : List Char).reverse = ['/', 'i', 'p', 'a', '/'] := by
    decide
  rw [hrev]
  have hstop : (['/', 'i', 'p', 'a', '/'] ++ l.reverse).dropWhile jsIsWs
      = ['/', 'i', 'p', 'a', '/'] ++ l.reverse := by
    refine dropWhile_eq_self_of_head ?_
    intro c hc
    simp at hc
    rw [← hc]
    decide
  rw [hstop, List.reverse_append, List.reverse_reverse]
  have hrev2 : (['/', 'i', 'p', 'a', '/'] : List Char).reverse = ['/', 'a', 'p', 'i', '/'] := by
    decide
  rw [hrev2]

theorem strip_slashes_append_api_slash (l : List Char) :
    stripTrailingSlashesL (l ++ ['/', 'a', 'p', 'i', '/']) = l ++ ['/', 'a', 'p', 'i'] := by
  unfold stripTrailingSlashesL
  rw [List.reverse_append]
  have hrev : (['/', 'a', 'p', 'i', '/'] : List Char).reverse = ['/', 'i', 'p', 'a', '/'] := by
    decide
  rw [hrev]
  have hstep : (['/', 'i', 'p', 'a', '/'] ++ l.reverse).dropWhile (fun c => c = '/')
      = ['i', 'p', 'a', '/'] ++ l.reverse := by
    have h1 : (['/', 'i', 'p', 'a', '/'] ++ l.reverse : List Char)
        = '/' :: (['i', 'p', 'a', '/'] ++ l.reverse) := by simp
    rw [h1, List.dropWhile_cons_of_pos (by decide)]
    refine dropWhile_eq_self_of_head ?_
    intro c hc
    simp at hc
    rw [← hc]
    decide
  rw [hstep, List.reverse_append, List.reverse_reverse]
  have hrev2 : (['i', 'p', 'a', '/'] : List Char).reverse = ['/', 'a', 'p', 'i'] := by decide
  rw [hrev2]

theorem endsWith_api_append (l : List Char) :
    endsWithL "/api".data (toLowerL (l ++ ['/', 'a', 'p', 'i'])) = true := by
  unfold endsWithL toLowerL
  rw [List.map_append]
  have hmap : (['/', 'a', 'p', 'i'] : List Char).map Char.toLower = ['/', 'a', 'p', 'i'] := by
    decide
  rw [hmap, List.reverse_append]
  have hrev : (['/', 'a', 'p', 'i'] : List Char).reverse = ['i', 'p', 'a', '/'] := by decide
  rw [hrev]
  simp [List.isPrefixOf_iff_prefix]

theorem dropRight_append_api (l : List Char) :
    dropRightL 4 (l ++ ['/', 'a', 'p', 'i']) = l := by
  unfold dropRightL
  rw [List.length_append]
  have h4 : (['/', 'a', 'p', 'i'] : List Char).length = 4 := by decide
  rw [h4, Nat.add_sub_cancel, List.take_left]

theorem noLeadingWs_dropWhile_fix {u : String} (h : noLeadingWs u = true) :
    u.data.dropWhile jsIsWs = u.data := by
  refine dropWhile_eq_self_of_head ?_
  intro c hc
  unfold noLeadingWs at h
  cases hu : u.data with
  | nil => rw [hu] at hc; cases hc
  | cons d t =>
    rw [hu] at h hc
    simp at h
    simp at hc
    rw [← hc]
    exact h

theorem string_eq_empty_iff (s : String) : s = "" ↔ s.data = [] := by
  rw [String.ext_iff]

theorem string_length_pos_iff (s : String) : 0 < s.length ↔ s ≠ "" := by
  cases s with
  | mk d =>
    cases d with
    | nil => simp [String.length]
    | cons c t =>
      simp only [String.length]
      constructor
      · intro _ h
        have := (string_eq_empty_iff _).mp h
        simp at this
      · intro _
        simp

/-- Claim C10: the resolved base is never the empty string — an input
reducing to nothing after normalization falls back to the relative path —
and the trailing suffix check is case-insensitive. -/
theorem if_empty_fallback_ne_empty (l : List Char) :
    (if l = [] then ("/api" : String) else ⟨l⟩) ≠ "" := by
  split
  · decide
  · next hne =>
    intro heq
    exact hne ((string_eq_empty_iff _).mp heq)

theorem normalizeBaseUrl_append_api (u : String) (h : noLeadingWs u = true) :
    normalizeBaseUrl (some (u ++ "/api")) = (if u = "" then "/api" else u) := by
  have hdata : (u ++ "/api").data = u.data ++ ['/', 'a', 'p', 'i'] := by
    rw [String.data_append]
  have hne : (u ++ "/api") ≠ "" := by
    intro heq
    rw [string_eq_empty_iff, hdata] at heq
    simp at heq
  have hfix := noLeadingWs_dropWhile_fix h
  simp only [normalizeBaseUrl]
  rw [if_neg hne, hdata, trimL_append_api u.data hfix, strip_slashes_append_api,
    endsWith_api_append, if_pos rfl, dropRight_append_api]
  by_cases hu : u = ""
  · rw [if_pos hu, if_pos ((string_eq_empty_iff u).mp hu)]
  · rw [if_neg hu, if_neg (fun hd => hu ((string_eq_empty_iff u).mpr hd))]

theorem normalizeBaseUrl_append_api_slash (u : String) (h : noLeadingWs u = true) :
    normalizeBaseUrl (some (u ++ "/api/")) = (if u = "" then "/api" else u) := by
  have hdata : (u ++ "/api/").data = u.data ++ ['/', 'a', 'p', 'i', '/'] := by
    rw [String.data_append]
  have hne : (u ++ "/api/") ≠ "" := by
    intro heq
    rw [string_eq_empty_iff, hdata] at heq
    simp at heq
  have hfix := noLeadingWs_dropWhile_fix h
  simp only [normalizeBaseUrl]
  rw [if_neg hne, hdata, trimL_append_api_slash u.data hfix, strip_slashes_append_api_slash,
    endsWith_api_append, if_pos rfl, dropRight_append_api]
  by_cases hu : u = ""
  · rw [if_pos hu, if_pos ((string_eq_empty_iff u).mp hu)]
  · rw [if_neg hu, if_neg (fun hd => hu ((string_eq_empty_iff u).mpr hd))]

theorem collapseWsGo_ws_eq_space :
    ∀ (l : List Char) (b : Bool) (c : Char),
      c ∈ collapseWsGo b l → jsIsWs c = true → c = ' ' := by
  intro l
  induction l with
  | nil => intro b c hc; simp [collapseWsGo] at hc
  | cons x t ih =>
    intro b c hc hws
    simp only [collapseWsGo] at hc
    by_cases hx : jsIsWs x = true
    · rw [if_pos hx] at hc
      by_cases hb : b
      · rw [if_pos hb] at hc
        exact ih true c hc hws
      · rw [if_neg hb] at hc
        rcases List.mem_cons.mp hc with h1 | h2
        · exact h1
        · exact ih true c h2 hws
    · rw [if_neg hx] at hc
      rcases List.mem_cons.mp hc with h1 | h2
      · rw [h1] at hws; exact absurd hws hx
      · exact ih false c h2 hws

theorem collapseWsGo_true_head_not_ws :
    ∀ (l : List Char) (c : Char),
      (collapseWsGo true l).head? = some c → jsIsWs c = false := by
  intro l
  induction l with
  | nil => intro c hc; cases hc
  | cons x t ih =>
    intro c hc
    simp only [collapseWsGo] at hc
    by_cases hx : jsIsWs x = true
    · rw [if_pos hx] at hc
      simp only [if_true] at hc
      exact ih c hc
    · rw [if_neg hx] at hc
      cases hc
      simpa using hx

theorem collapseWsGo_no_double_space :
    ∀ (l : List Char) (b : Bool),
      List.Chain' (fun a c => ¬(a = ' ' ∧ c = ' ')) (collapseWsGo b l) := by
  intro l
  induction l with
  | nil => intro b; simp [collapseWsGo]
  | cons x t ih =>
    intro b
    simp only [collapseWsGo]
    by_cases hx : jsIsWs x = true
    · rw [if_pos hx]
      by_cases hb : b
      · rw [if_pos hb]; exact ih true
      · rw [if_neg hb]
        rw [List.chain'_cons']
        refine ⟨?_, ih true⟩
        intro y hy
        have hyws := collapseWsGo_true_head_not_ws t y hy
        intro hcon
        rw [hcon.2] at hyws
        simp [jsIsWs] at hyws
    · rw [if_neg hx]
      rw [List.chain'_cons']
      refine ⟨?_, ih false⟩
      intro y hy
      intro hcon
      rw [hcon.1] at hx
      simp [jsIsWs] at hx

/-- Claim C1 counterexample: after switching the active patient to
`patientB`, the previous patient's message is still in `messages` while
the fetch is in flight (the effect clears only for a falsy patient), and
when the fetch fails `messages` keeps the stale entry instead of becoming
empty — only `error` is set. -/
theorem c1_history_clear_counterexample :
    (historyEffectPre switchedState).messages = [staleMessage] ∧
    (historyEffectPre switchedState).messages ≠ [] ∧
    (historyEffect switchedState (Except.error ())).messages = [staleMessage] ∧
    (historyEffect switchedState (Except.error ())).messages ≠ [] ∧
    (historyEffect switchedState (Except.error ())).error = "Unable to load chat history." := by
  refine ⟨rfl, by decide, rfl, by decide, rfl⟩

/-- Claim C1 (amended): with a truthy active patient the effect leaves
`messages` untouched until the fetch resolves; on success it replaces
`messages` with the fetched history (empty when the field is absent); on
failure it sets `error` and leaves `messages` unchanged.  `messages` is
cleared exactly when the active patient is absent or has a falsy id. -/
theorem c1_history_effect_amended (s : AppState) (p : Patient)
    (hp : s.activePatient = some p) (hid : p.id ≠ "") :
    (historyEffectPre s).messages = s.messages ∧
    (∀ hist, (historyEffect s (Except.ok hist)).messages = hist.getD []) ∧
    (historyEffect s (Except.error ())).messages = s.messages ∧
    (historyEffect s (Except.error ())).error = "Unable to load chat history." ∧
    (∀ t : AppState, t.activePatient = none →
      (historyEffectPre t).messages = [] ∧
      ∀ r, (historyEffect t r).messages = []) ∧
    (∀ (t : AppState) (q : Patient), t.activePatient = some q → q.id = "" →
      (historyEffectPre t).messages = [] ∧
      ∀ r, (historyEffect t r).messages = []) := by
  refine ⟨?_, ?_, ?_, ?_, ?_, ?_⟩
  · simp [historyEffectPre, hp, hid]
  · intro hist
    simp [historyEffect, historyEffectPre, historyEffectPost, hp, hid]
  · simp [historyEffect, historyEffectPre, historyEffectPost, hp, hid]
  · simp [historyEffect, historyEffectPre, historyEffectPost, hp, hid]
  · intro t ht
    exact ⟨by simp [historyEffectPre, ht], fun r => by simp [historyEffect, ht]⟩
  · intro t q ht hq
    exact ⟨by simp [historyEffectPre, ht, hq], fun r => by simp [historyEffect, ht, hq]⟩

theorem c1_history_effect_amended_witness :
    (historyEffectPre switchedState).messages = switchedState.messages ∧
    (historyEffect switchedState (Except.error ())).error = "Unable to load chat history." ∧
    (historyEffectPre blankIdState).messages = [] ∧
    (historyEffect blankIdState (Except.error ())).messages = [] :=
  ⟨(c1_history_effect_amended switchedState patientB rfl (by decide)).1,
   (c1_history_effect_amended switchedState patientB rfl (by decide)).2.2.2.1,
   ((c1_history_effect_amended switchedState patientB rfl (by decide)).2.2.2.2.2
      blankIdState blankIdPatient rfl rfl).1,
   ((c1_history_effect_amended switchedState patientB rfl (by decide)).2.2.2.2.2
      blankIdState blankIdPatient rfl rfl).2 (Except.error ())⟩

/-- Claim C2: for every non-2xx response the constructed error text
follows the three-tier scheme; the construction is a total function, so
it cannot itself throw.  The second tier's snippet is at most 160
characters, all its whitespace is single spaces, and no two adjacent
spaces occur in it. -/
theorem c2_http_error_three_tiers (r : RespModel) (dm : String) :
    (∀ dat v, r.jsonBody = some dat → firstTruthyField dat = some v →
        buildHttpError r dm = dm ++ ": " ++ v) ∧
    (∀ t, jsonTierUnavailable r → r.textBody = some t →
        buildHttpError r dm =
          dm ++ ": HTTP " ++ toString r.status ++ " " ++ r.statusText ++ " — " ++ snippetOf t ∧
        (snippetOf t).length ≤ 160 ∧
        (∀ c ∈ (snippetOf t).data, jsIsWs c = true → c = ' ') ∧
        List.Chain' (fun a c => ¬(a = ' ' ∧ c = ' ')) (snippetOf t).data) ∧
    (jsonTierUnavailable r → r.textBody = none →
        buildHttpError r dm = dm ++ ": HTTP " ++ toString r.status ++ " " ++ r.statusText) := by
  have htext : ∀ t, r.textBody = some t →
      buildHttpErrorTextTier r dm =
        dm ++ ": HTTP " ++ toString r.status ++ " " ++ r.statusText ++ " — " ++ snippetOf t := by
    intro t ht
    unfold buildHttpErrorTextTier httpStatusLine
    rw [ht]
    simp [String.ext_iff, List.append_assoc]
  have hskip : jsonTierUnavailable r → buildHttpError r dm = buildHttpErrorTextTier r dm := by
    intro hj
    unfold buildHttpError
    rcases hj with hnone | ⟨dat, hdat, hfield⟩
    · rw [hnone]
    · simp only [hdat, hfield]
  refine ⟨?_, ?_, ?_⟩
  · intro dat v hdat hv
    unfold buildHttpError
    simp only [hdat, hv]
  · intro t hj ht
    refine ⟨(hskip hj).trans (htext t ht), ?_, ?_, ?_⟩
    · show ((collapseWs t).data.take 160).length ≤ 160
      rw [List.length_take]
      exact Nat.min_le_left _ _
    · intro c hc hws
      have hc' : c ∈ (collapseWs t).data := List.mem_of_mem_take hc
      exact collapseWsGo_ws_eq_space t.data false c hc' hws
    · exact (collapseWsGo_no_double_space t.data false).take 160
  · intro hj ht
    rw [hskip hj]
    unfold buildHttpErrorTextTier httpStatusLine
    rw [ht]
    simp [String.ext_iff, List.append_assoc]

theorem c2_http_error_three_tiers_witness :
    buildHttpError respDetail "Failed to fetch patients" = "Failed to fetch patients: boom" ∧
    buildHttpError respHtml "Failed to send message" =
      "Failed to send message: HTTP 404 Not Found — a b" ∧
    buildHttpError respUnreadable "Failed to save patient" =
      "Failed to save patient: HTTP 502 Bad Gateway" := by
  refine ⟨?_, ?_, ?_⟩
  · have h := (c2_http_error_three_tiers respDetail "Failed to fetch patients").1
      { detail := "boom", message := "", error := "" } "boom" rfl (by decide)
    exact h.trans (by decide)
  · have h := ((c2_http_error_three_tiers respHtml "Failed to send message").2.1
      "a\n\n  b" (Or.inl rfl) rfl).1
    exact h.trans (by decide)
  · have h := (c2_http_error_three_tiers respUnreadable "Failed to save patient").2.2
      (Or.inr ⟨_, rfl, by decide⟩) rfl
    exact h.trans (by decide)

/-- Claim C3: with the backend URL absent the base resolves to the
relative path; when present, trailing slashes are trimmed and one
trailing api suffix is stripped (shown for every leading-whitespace-free
prefix, with and without a trailing slash), and in particular the spec's
scenario input resolves to the bare origin. -/
theorem c3_base_url_resolution :
    normalizeBaseUrl none = "/api" ∧
    normalizeBaseUrl (some "https://host:3001/api/") = "https://host:3001" ∧
    ∀ u : String, noLeadingWs u = true →
      normalizeBaseUrl (some (u ++ "/api")) = (if u = "" then "/api" else u) ∧
      normalizeBaseUrl (some (u ++ "/api/")) = (if u = "" then "/api" else u) := by
  refine ⟨rfl, by decide, ?_⟩
  intro u h
  exact ⟨normalizeBaseUrl_append_api u h, normalizeBaseUrl_append_api_slash u h⟩

theorem c3_base_url_resolution_witness :
    normalizeBaseUrl (some ("https://host:3001" ++ "/api/")) = "https://host:3001" :=
  ((c3_base_url_resolution.2.2 "https://host:3001" (by decide)).2).trans (by decide)

/-- Claim C4: the send guard is enabled exactly when the trimmed input is
non-empty, an active patient exists, and no send is in flight. -/
theorem c4_canSend_iff (s : AppState) :
    canSend s = true ↔
      (jsTrim s.userInput ≠ "" ∧ s.activePatient.isSome = true ∧ s.loading = false) := by
  unfold canSend
  simp only [Bool.and_eq_true, decide_eq_true_eq, Bool.not_eq_true']
  rw [← string_length_pos_iff]
  exact ⟨fun h => ⟨h.1.1, h.1.2, h.2⟩, fun h => ⟨⟨h.1, h.2.1⟩, h.2.2⟩⟩

/-- Claim C5: under `canSend`, the optimistic user message (agent user,
content the trimmed input) is appended before the HTTP call, and a
successful response appends exactly the agent1-derived message and then
the agent2-derived message — the order is fixed by the handler, not by
the payload. -/
theorem c5_send_appends_in_order (s : AppState) (now ts : String)
    (resp : ChatResponse) (h : canSend s = true) :
    (userMessage s now ts).agent = "user" ∧
    (userMessage s now ts).content = jsTrim s.userInput ∧
    (handleSendPre s now ts).messages = s.messages ++ [userMessage s now ts] ∧
    (handleSend s now ts (Except.ok resp)).1.messages =
      s.messages ++ [userMessage s now ts,
                     resp.agent1.getD (agent1Fallback now ts),
                     resp.agent2.getD (agent2Fallback now ts)] := by
  refine ⟨rfl, rfl, ?_, ?_⟩
  · simp [handleSendPre, h]
  · simp [handleSend, handleSendPre, handleSendPost, h]

theorem c5_send_appends_in_order_witness :
    (handleSend sendState "42" "2024-01-01T00:00:00.000Z"
        (Except.ok { agent1 := none, agent2 := none })).1.messages =
      [userMessage sendState "42" "2024-01-01T00:00:00.000Z",
       agent1Fallback "42" "2024-01-01T00:00:00.000Z",
       agent2Fallback "42" "2024-01-01T00:00:00.000Z"] := by
  have h := (c5_send_appends_in_order sendState "42" "2024-01-01T00:00:00.000Z"
    { agent1 := none, agent2 := none } (by decide)).2.2.2
  simpa using h

/-- Claim C6: a response without agent fields yields exactly the two
client-side fallback messages, agent1's first, each with its
agent-specific default content; a response missing only one agent field
gets a fallback for that field alone. -/
theorem c6_fallback_messages (s : AppState) (now ts : String) (h : canSend s = true) :
    ((handleSend s now ts (Except.ok { agent1 := none, agent2 := none })).1.messages =
        s.messages ++ [userMessage s now ts, agent1Fallback now ts, agent2Fallback now ts]) ∧
    (agent1Fallback now ts).agent = "agent1" ∧
    (agent2Fallback now ts).agent = "agent2" ∧
    (agent1Fallback now ts).content =
      "I\x27m Agent 1. I will ask you health-related questions to record symptoms." ∧
    (agent2Fallback now ts).content =
      "I\x27m Agent 2. Based on symptoms, I will recommend appropriate medicine." ∧
    (∀ m1, (handleSend s now ts (Except.ok { agent1 := some m1, agent2 := none })).1.messages =
        s.messages ++ [userMessage s now ts, m1, agent2Fallback now ts]) ∧
    (∀ m2, (handleSend s now ts (Except.ok { agent1 := none, agent2 := some m2 })).1.messages =
        s.messages ++ [userMessage s now ts, agent1Fallback now ts, m2]) := by
  refine ⟨?_, rfl, rfl, rfl, rfl, ?_, ?_⟩
  · simp [handleSend, handleSendPre, handleSendPost, h]
  · intro m1
    simp [handleSend, handleSendPre, handleSendPost, h]
  · intro m2
    simp [handleSend, handleSendPre, handleSendPost, h]

theorem c6_fallback_messages_witness :
    (handleSend sendState "7" "t7" (Except.ok { agent1 := none, agent2 := none })).1.messages =
      [userMessage sendState "7" "t7", agent1Fallback "7" "t7", agent2Fallback "7" "t7"] := by
  have h := (c6_fallback_messages sendState "7" "t7" (by decide)).1
  simpa using h

/-- Claim C7: a failed send sets the send-failure banner, keeps the
optimistically appended user message, and clears `loading`; a successful
send clears `loading` too.  The handler consumes the failure (the model
is a total function), so nothing propagates past it. -/
theorem c7_send_failure_handling (s : AppState) (now ts : String) (h : canSend s = true) :
    ((handleSend s now ts (Except.error ())).1.error =
        "Unable to send message. Please try again.") ∧
    ((handleSend s now ts (Except.error ())).1.messages =
        s.messages ++ [userMessage s now ts]) ∧
    ((handleSend s now ts (Except.error ())).1.loading = false) ∧
    (∀ resp, (handleSend s now ts (Except.ok resp)).1.loading = false) := by
  refine ⟨?_, ?_, ?_, ?_⟩
  · simp [handleSend, handleSendPre, handleSendPost, h]
  · simp [handleSend, handleSendPre, handleSendPost, h]
  · simp [handleSend, handleSendPre, handleSendPost, h]
  · intro resp
    simp [handleSend, handleSendPre, handleSendPost, h]

theorem c7_send_failure_handling_witness :
    (handleSend sendState "9" "t9" (Except.error ())).1.error =
      "Unable to send message. Please try again." ∧
    (handleSend sendState "9" "t9" (Except.error ())).1.loading = false :=
  ⟨(c7_send_failure_handling sendState "9" "t9" (by decide)).1,
   (c7_send_failure_handling sendState "9" "t9" (by decide)).2.2.1⟩

/-- Claim C8: when the startup fetch rejects, the patient list stays
empty, the fetch-failure banner is set and no patient is auto-selected;
when it resolves with a non-empty list, the first patient becomes
active. -/
theorem c8_initial_load :
    (initialLoadEffect initialState (Except.error ())).patients = [] ∧
    (initialLoadEffect initialState (Except.error ())).error = "Unable to load patients." ∧
    (initialLoadEffect initialState (Except.error ())).activePatient = none ∧
    (∀ p ps,
      (initialLoadEffect initialState (Except.ok (some (p :: ps)))).activePatient = some p ∧
      (initialLoadEffect initialState (Except.ok (some (p :: ps)))).patients = p :: ps) := by
  refine ⟨rfl, rfl, rfl, ?_⟩
  intro p ps
  exact ⟨rfl, rfl⟩

/-- Claim C9: with `canSend` false the send intent is a no-op — no HTTP
request is issued (the boolean of the pair) and the state is returned
unchanged in every field. -/
theorem c9_disabled_send_is_noop (s : AppState) (now ts : String)
    (result : Except Unit ChatResponse) (h : canSend s = false) :
    handleSend s now ts result = (s, false) := by
  simp [handleSend, h]

theorem c9_disabled_send_is_noop_witness :
    handleSend inFlightState "11" "t11" (Except.error ()) = (inFlightState, false) :=
  c9_disabled_send_is_noop inFlightState "11" "t11" (Except.error ()) (by decide)

theorem c10_base_url_nonempty_case_insensitive :
    (∀ url : Option String, normalizeBaseUrl url ≠ "") ∧
    normalizeBaseUrl (some "/api") = "/api" ∧
    normalizeBaseUrl (some "/api/") = "/api" ∧
    normalizeBaseUrl (some "/API") = "/api" ∧
    normalizeBaseUrl (some "https://host/API") = "https://host" := by
  refine ⟨?_, by decide, by decide, by decide, by decide⟩
  intro url
  match url with
  | none => decide
  | some s =>
    by_cases hs : s = ""
    · simp [normalizeBaseUrl, hs]
    · simp only [normalizeBaseUrl, if_neg hs]
      split
      · exact if_empty_fallback_ne_empty _
      · exact if_empty_fallback_ne_empty _
